import Mathlib

/-!
Shallow embedding of the restore-orchestration core of the
stackstate-backup-cli repository (Go), together with proofs about it.

Go strings are modelled as sequences of runes (List Char); Go
strings.HasPrefix(s, p) is List.isPrefixOf p s.  Go error values are
modelled as Option GoStr (none = nil error) or Except GoStr for
fallible results; error messages mirror the fmt.Errorf format strings
of the source.  External effects (Kubernetes API calls, Elasticsearch
HTTP calls, stdin) are modelled as explicit oracles passed in as
function arguments, so every definition is executable.
-/

namespace StackstateBackup

/-- Go strings modelled as rune sequences. -/
abbrev GoStr := List Char

/-- Function filterSTSIndices of cmd/elasticsearch/restore-snapshot.go: keeps
exactly the indices whose name starts with either configured STS name pattern.
The Go parameter names indexPrefix and datastreamPrefix are shortened to
indexPfx and datastreamPfx. -/
def filterSTSIndices (allIndices : List GoStr) (indexPfx datastreamPfx : GoStr) : List GoStr :=
  match allIndices with
  | [] => []
  | index :: rest =>
    if indexPfx.isPrefixOf index || datastreamPfx.isPrefixOf index then
      index :: filterSTSIndices rest indexPfx datastreamPfx
    else
      filterSTSIndices rest indexPfx datastreamPfx

/-- Function hasDatastreamIndices of cmd/elasticsearch/restore-snapshot.go: true
when some index name starts with the datastream name followed by a dash. -/
def hasDatastreamIndices (indices : List GoStr) (datastreamPfx : GoStr) : Bool :=
  match indices with
  | [] => false
  | index :: rest =>
    if (datastreamPfx ++ ['-']).isPrefixOf index then true
    else hasDatastreamIndices rest datastreamPfx

theorem filterSTSIndices_eq_filter (l : List GoStr) (p q : GoStr) :
    filterSTSIndices l p q = l.filter (fun s => p.isPrefixOf s || q.isPrefixOf s) := by
  induction l with
  | nil => rfl
  | cons a t ih =>
    by_cases h : (p.isPrefixOf a || q.isPrefixOf a) = true
    · simp [filterSTSIndices, h, ih]
    · simp [filterSTSIndices, h, ih]

/-- C7: filterSTSIndices returns exactly the input names having one of the two
patterns as a literal head, in input order (the result is a sublist of the
input), with empty input giving empty output; it is a pure function of its
arguments. -/
theorem filterSTSIndices_spec (l : List GoStr) (p q : GoStr) :
    filterSTSIndices l p q = l.filter (fun s => p.isPrefixOf s || q.isPrefixOf s)
    ∧ (filterSTSIndices l p q).Sublist l
    ∧ (∀ x, x ∈ filterSTSIndices l p q ↔ x ∈ l ∧ (p <+: x ∨ q <+: x))
    ∧ filterSTSIndices [] p q = [] := by
  refine ⟨filterSTSIndices_eq_filter l p q, ?_, ?_, rfl⟩
  · rw [filterSTSIndices_eq_filter]
    exact List.filter_sublist l
  · intro x
    rw [filterSTSIndices_eq_filter, List.mem_filter]
    simp

/-- C8: hasDatastreamIndices is true exactly when some element starts with the
datastream pattern immediately followed by a dash; in particular it is false on
the singleton list holding the bare pattern itself, and true on the singleton
list holding the pattern followed by the string of a dash and 000001. -/
theorem hasDatastreamIndices_spec (l : List GoStr) (p : GoStr) :
    (hasDatastreamIndices l p = true ↔ ∃ x, x ∈ l ∧ (p ++ ['-']) <+: x)
    ∧ hasDatastreamIndices [p] p = false
    ∧ hasDatastreamIndices [p ++ "-000001".data] p = true := by
  have hany : ∀ m : List GoStr, hasDatastreamIndices m p = m.any (fun x => (p ++ ['-']).isPrefixOf x) := by
    intro m
    induction m with
    | nil => rfl
    | cons a t ih =>
      by_cases h : ((p ++ ['-']).isPrefixOf a) = true
      · simp [hasDatastreamIndices, h]
      · simp only [Bool.not_eq_true] at h
        simp [hasDatastreamIndices, h, ih]
  refine ⟨?_, ?_, ?_⟩
  · rw [hany, List.any_eq_true]
    simp
  · have hno : ¬ ((p ++ ['-']) <+: p) := by
      intro h
      have := h.length_le
      simp at this
    simp [hasDatastreamIndices, hno]
  · have hyes : (p ++ ['-']) <+: (p ++ "-000001".data) := by
      have hdata : "-000001".data = ['-'] ++ "000001".data := rfl
      rw [hdata, ← List.append_assoc]
      exact List.prefix_append _ _
    simp [hasDatastreamIndices, hyes]

/-- Outcome the Elasticsearch HTTP layer hands back for one probe: either a
transport-level error from the Go client library, or an HTTP response with a
status code. -/
inductive ESResponse where
  | transportError (msg : GoStr)
  | httpResponse (statusCode : Nat)
deriving DecidableEq, Repr

/-- Response.IsError of the go-elasticsearch esapi package, used by every
method of internal/elasticsearch/client.go: an error response is one whose
status code is above 299. -/
def responseIsError (statusCode : Nat) : Bool := statusCode > 299

/-- Method IndexExists of internal/elasticsearch/client.go, as a function of
the probe outcome.  The Go method returns (bool, error); nil errors are none.
The body of the elasticsearch-returned-error message (res.String()) is
abstracted to the status code rendered in the message position. -/
def IndexExists (resp : ESResponse) : Bool × Option GoStr :=
  match resp with
  | .transportError e => (false, some ("failed to check index existence: ".data ++ e))
  | .httpResponse code =>
    if code = 404 then (false, none)
    else if responseIsError code then (false, some "elasticsearch returned error".data)
    else (true, none)

/-- C10: IndexExists reports the index absent with no error exactly on an HTTP
404; any success status gives (true, none); any other error status, and any
transport failure, gives an error verdict rather than an absent one. -/
theorem IndexExists_spec :
    (∀ resp, IndexExists resp = (false, none) ↔ resp = ESResponse.httpResponse 404)
    ∧ (∀ code, responseIsError code = false → IndexExists (ESResponse.httpResponse code) = (true, none))
    ∧ (∀ code, code ≠ 404 → responseIsError code = true →
        IndexExists (ESResponse.httpResponse code) = (false, some "elasticsearch returned error".data))
    ∧ (∀ e, (IndexExists (ESResponse.transportError e)).2.isSome = true) := by
  refine ⟨?_, ?_, ?_, ?_⟩
  · intro resp
    match resp with
    | .transportError e => simp [IndexExists]
    | .httpResponse code =>
      by_cases h : code = 404
      · subst h; simp [IndexExists]
      · by_cases he : responseIsError code = true
        · simp [IndexExists, h, he]
        · simp only [Bool.not_eq_true] at he
          simp [IndexExists, h, he]
  · intro code h
    have h404 : code ≠ 404 := by
      intro hc; subst hc; simp [responseIsError] at h
    simp [IndexExists, h404, h]
  · intro code h404 herr
    simp [IndexExists, h404, herr]
  · intro e
    simp [IndexExists]

/-- Witness for C10 at concrete status codes. -/
theorem IndexExists_spec_witness :
    IndexExists (ESResponse.httpResponse 200) = (true, none)
    ∧ IndexExists (ESResponse.httpResponse 404) = (false, none)
    ∧ IndexExists (ESResponse.httpResponse 500) = (false, some "elasticsearch returned error".data) :=
  ⟨IndexExists_spec.2.1 200 (by decide),
   (IndexExists_spec.1 (ESResponse.httpResponse 404)).mpr rfl,
   IndexExists_spec.2.2.1 500 (by decide) (by decide)⟩

/-- The maximum number of attempts to verify index deletion
(defaultMaxIndexDeleteAttempts of cmd/elasticsearch/restore-snapshot.go). -/
def defaultMaxIndexDeleteAttempts : Nat := 30

/-- Outcome of one deleteIndexWithVerification run: the returned error (none
is success), the number of IndexExists checks performed, and the number of
retry-interval sleeps performed. -/
structure VerifyOutcome where
  err : Option GoStr
  checks : Nat
  sleeps : Nat
deriving DecidableEq, Repr

/-- The timeout message of deleteIndexWithVerification. -/
def timeoutMsg (index : GoStr) : GoStr :=
  "timeout waiting for index ".data ++ index ++ " to be deleted".data

/-- The verification loop of deleteIndexWithVerification
(cmd/elasticsearch/restore-snapshot.go lines 206-219).  checkExists gives the
outcome of the IndexExists call at each attempt number.  The Go loop runs
attempt from 0 while attempt is below maxAttempts; here remaining counts the
iterations still allowed, kept equal to maxAttempts minus attempt by the
caller so the recursion is structural. -/
def verifyLoop (checkExists : Nat → Except GoStr Bool) (maxAttempts : Nat) (index : GoStr) (attempt : Nat) : Nat → VerifyOutcome
  | 0 => ⟨none, 0, 0⟩
  | remaining + 1 =>
    match checkExists attempt with
    | .error e => ⟨some ("failed to check index existence: ".data ++ e), 1, 0⟩
    | .ok false => ⟨none, 1, 0⟩
    | .ok true =>
      if maxAttempts - 1 ≤ attempt then
        ⟨some (timeoutMsg index), 1, 0⟩
      else
        let r := verifyLoop checkExists maxAttempts index (attempt + 1) remaining
        ⟨r.err, r.checks + 1, r.sleeps + 1⟩

/-- Function deleteIndexWithVerification of cmd/elasticsearch/restore-snapshot.go:
issue the delete call (whose outcome is deleteErr), then poll existence up to
maxAttempts times. -/
def deleteIndexWithVerification (deleteErr : Option GoStr) (checkExists : Nat → Except GoStr Bool) (maxAttempts : Nat) (index : GoStr) : VerifyOutcome :=
  match deleteErr with
  | some e => ⟨some ("failed to delete index ".data ++ index ++ ": ".data ++ e), 0, 0⟩
  | none => verifyLoop checkExists maxAttempts index 0 maxAttempts

theorem verifyLoop_step_false {checkExists : Nat → Except GoStr Bool} {maxAttempts attempt remaining : Nat} {index : GoStr}
    (h : checkExists attempt = Except.ok false) :
    verifyLoop checkExists maxAttempts index attempt (remaining + 1) = ⟨none, 1, 0⟩ := by
  simp [verifyLoop, h]

theorem verifyLoop_step_true {checkExists : Nat → Except GoStr Bool} {maxAttempts attempt remaining : Nat} {index : GoStr}
    (h : checkExists attempt = Except.ok true) (hlt : ¬ maxAttempts - 1 ≤ attempt) :
    verifyLoop checkExists maxAttempts index attempt (remaining + 1) =
      ⟨(verifyLoop checkExists maxAttempts index (attempt + 1) remaining).err,
       (verifyLoop checkExists maxAttempts index (attempt + 1) remaining).checks + 1,
       (verifyLoop checkExists maxAttempts index (attempt + 1) remaining).sleeps + 1⟩ := by
  simp [verifyLoop, h, hlt]

theorem verifyLoop_step_timeout {checkExists : Nat → Except GoStr Bool} {maxAttempts attempt remaining : Nat} {index : GoStr}
    (h : checkExists attempt = Except.ok true) (hge : maxAttempts - 1 ≤ attempt) :
    verifyLoop checkExists maxAttempts index attempt (remaining + 1) = ⟨some (timeoutMsg index), 1, 0⟩ := by
  simp [verifyLoop, h, hge]

theorem verifyLoop_allTrue (checkExists : Nat → Except GoStr Bool) (index : GoStr) :
    ∀ n attempt maxAttempts, maxAttempts = attempt + n → 0 < n →
      (∀ k, attempt ≤ k → k < maxAttempts → checkExists k = Except.ok true) →
      verifyLoop checkExists maxAttempts index attempt n = ⟨some (timeoutMsg index), n, n - 1⟩ := by
  intro n
  induction n with
  | zero => intro attempt maxAttempts _ h0 _; omega
  | succ m ih =>
    intro attempt maxAttempts hmax _ hall
    have htrue : checkExists attempt = Except.ok true := hall attempt le_rfl (by omega)
    by_cases hm : m = 0
    · subst hm
      have hge : maxAttempts - 1 ≤ attempt := by omega
      rw [verifyLoop_step_timeout htrue hge]
    · have hlt : ¬ maxAttempts - 1 ≤ attempt := by omega
      rw [verifyLoop_step_true htrue hlt]
      have hrec := ih (attempt + 1) maxAttempts (by omega) (by omega)
        (fun k hk1 hk2 => hall k (by omega) hk2)
      rw [hrec]
      simp
      omega

/-- C5: when the delete call succeeds but every existence check reports the
index still present, deleteIndexWithVerification with the default bound of 30
performs exactly 30 existence checks and returns the deletion-timeout error
naming the index (after 29 interval sleeps). -/
theorem deleteIndexWithVerification_timeout (checkExists : Nat → Except GoStr Bool) (index : GoStr)
    (h : ∀ k, k < defaultMaxIndexDeleteAttempts → checkExists k = Except.ok true) :
    deleteIndexWithVerification none checkExists defaultMaxIndexDeleteAttempts index =
      ⟨some (timeoutMsg index), 30, 29⟩ := by
  have := verifyLoop_allTrue checkExists index 30 0 30 rfl (by omega)
    (fun k _ hk => h k hk)
  simpa [deleteIndexWithVerification, defaultMaxIndexDeleteAttempts] using this

/-- Witness for C5: the always-present oracle. -/
theorem deleteIndexWithVerification_timeout_witness :
    deleteIndexWithVerification none (fun _ => Except.ok true) defaultMaxIndexDeleteAttempts "sts_test".data =
      ⟨some (timeoutMsg "sts_test".data), 30, 29⟩ :=
  deleteIndexWithVerification_timeout (fun _ => Except.ok true) "sts_test".data (fun _ _ => rfl)

/-- C6: with the default bound of 30, if the existence check reports the index
present on the first four checks and absent on the fifth, the call succeeds
after exactly 5 existence checks and 4 interval sleeps. -/
theorem deleteIndexWithVerification_early (checkExists : Nat → Except GoStr Bool) (index : GoStr)
    (h4 : ∀ k, k < 4 → checkExists k = Except.ok true)
    (h5 : checkExists 4 = Except.ok false) :
    deleteIndexWithVerification none checkExists defaultMaxIndexDeleteAttempts index =
      ⟨none, 5, 4⟩ := by
  show verifyLoop checkExists 30 index 0 30 = ⟨none, 5, 4⟩
  rw [show (30 : Nat) = 29 + 1 from rfl, verifyLoop_step_true (h4 0 (by omega)) (by omega)]
  rw [show (29 : Nat) = 28 + 1 from rfl, verifyLoop_step_true (h4 1 (by omega)) (by omega)]
  rw [show (28 : Nat) = 27 + 1 from rfl, verifyLoop_step_true (h4 2 (by omega)) (by omega)]
  rw [show (27 : Nat) = 26 + 1 from rfl, verifyLoop_step_true (h4 3 (by omega)) (by omega)]
  rw [show (26 : Nat) = 25 + 1 from rfl, verifyLoop_step_false h5]

/-- Witness for C6: the oracle that reports the index present on checks 0-3
and absent from check 4 on. -/
theorem deleteIndexWithVerification_early_witness :
    deleteIndexWithVerification none (fun k => Except.ok (decide (k < 4))) defaultMaxIndexDeleteAttempts "sts_test".data =
      ⟨none, 5, 4⟩ :=
  deleteIndexWithVerification_early (fun k => Except.ok (decide (k < 4))) "sts_test".data
    (fun k hk => by simp [hk]) rfl

/-- Type DeploymentScale of internal/k8s/client.go: the name and original
replica count of a deployment (int32 modelled as Int). -/
structure DeploymentScale where
  name : GoStr
  replicas : Int
deriving DecidableEq, Repr

/-- A deployment as listed by the Kubernetes API: Spec.Replicas is a nullable
pointer to an int32. -/
structure Deployment where
  name : GoStr
  specReplicas : Option Int
deriving DecidableEq, Repr

/-- The originalReplicas computation of ScaleDownDeployments: zero when
Spec.Replicas is nil, the pointed-to value otherwise. -/
def origReplicas (d : Deployment) : Int := d.specReplicas.getD 0

/-- The DeploymentScale record appended for one enumerated deployment. -/
def toScale (d : Deployment) : DeploymentScale := ⟨d.name, origReplicas d⟩

/-- The loop of ScaleDownDeployments (internal/k8s/client.go lines 175-197):
for each deployment, append its snapshot to the accumulator, then, when its
replica count is positive, issue the scale-to-zero update whose outcome is
updateErr of its name; an update failure returns the snapshots accumulated so
far together with the wrapped error. -/
def scaleDownLoop (updateErr : GoStr → Option GoStr) : List Deployment → List DeploymentScale → List DeploymentScale × Option GoStr
  | [], acc => (acc, none)
  | d :: rest, acc =>
    if 0 < origReplicas d then
      match updateErr d.name with
      | some e =>
        (acc ++ [toScale d],
         some ("failed to scale down deployment ".data ++ d.name ++ ": ".data ++ e))
      | none => scaleDownLoop updateErr rest (acc ++ [toScale d])
    else scaleDownLoop updateErr rest (acc ++ [toScale d])

/-- Method ScaleDownDeployments of internal/k8s/client.go: listRes is the
outcome of listing the deployments matching the label selector; updateErr
gives the outcome of the scale-to-zero update per deployment name. -/
def ScaleDownDeployments (listRes : Except GoStr (List Deployment)) (updateErr : GoStr → Option GoStr) : List DeploymentScale × Option GoStr :=
  match listRes with
  | .error e => ([], some ("failed to list deployments: ".data ++ e))
  | .ok deps =>
    if deps = [] then ([], none)
    else scaleDownLoop updateErr deps []

/-- Whether the scale-down loop fails at a given deployment: it has a positive
replica count and its update is rejected. -/
def scaleDownFails (updateErr : GoStr → Option GoStr) (d : Deployment) : Bool :=
  decide (0 < origReplicas d) && (updateErr d.name).isSome

theorem scaleDownLoop_append_ok (updateErr : GoStr → Option GoStr) :
    ∀ (pre l : List Deployment) (acc : List DeploymentScale),
      (∀ p ∈ pre, scaleDownFails updateErr p = false) →
      scaleDownLoop updateErr (pre ++ l) acc = scaleDownLoop updateErr l (acc ++ pre.map toScale) := by
  intro pre
  induction pre with
  | nil => intro l acc _; simp
  | cons p t ih =>
    intro l acc hok
    have hp : scaleDownFails updateErr p = false := hok p (by simp)
    by_cases hrep : 0 < origReplicas p
    · have hupd : updateErr p.name = none := by
        simp [scaleDownFails, hrep, Option.isSome_iff_exists] at hp
        exact hp
      rw [List.cons_append]
      simp only [scaleDownLoop, hrep, if_true, hupd]
      rw [ih l (acc ++ [toScale p]) (fun q hq => hok q (by simp [hq]))]
      simp
    · rw [List.cons_append]
      simp only [scaleDownLoop, hrep, if_false]
      rw [ih l (acc ++ [toScale p]) (fun q hq => hok q (by simp [hq]))]
      simp

/-- C3: when ScaleDownDeployments enumerates pre then d then post, every
deployment of pre is handled without failure, and the scale-to-zero update of
d (which has a positive replica count) is rejected, the call stops (the
deployments of post are not visited by the result), and it returns the
snapshots captured so far in enumeration order (pre then d) together with the
error naming d. -/
theorem ScaleDownDeployments_abort (updateErr : GoStr → Option GoStr)
    (pre post : List Deployment) (d : Deployment) (e : GoStr)
    (hpre : ∀ p ∈ pre, scaleDownFails updateErr p = false)
    (hrep : 0 < origReplicas d) (herr : updateErr d.name = some e) :
    ScaleDownDeployments (Except.ok (pre ++ d :: post)) updateErr =
      ((pre ++ [d]).map toScale,
       some ("failed to scale down deployment ".data ++ d.name ++ ": ".data ++ e)) := by
  have hne : pre ++ d :: post ≠ [] := by simp
  simp only [ScaleDownDeployments, hne, if_false]
  rw [scaleDownLoop_append_ok updateErr pre (d :: post) [] hpre]
  simp only [scaleDownLoop, hrep, if_true, herr]
  simp

/-- Witness for C3: three deployments, the middle update rejected. -/
theorem ScaleDownDeployments_abort_witness :
    ScaleDownDeployments
        (Except.ok [⟨"a".data, some 2⟩, ⟨"b".data, some 3⟩, ⟨"c".data, some 1⟩])
        (fun n => if n = "b".data then some "boom".data else none) =
      ([⟨"a".data, 2⟩, ⟨"b".data, 3⟩],
       some ("failed to scale down deployment ".data ++ "b".data ++ ": ".data ++ "boom".data)) := by
  have := ScaleDownDeployments_abort
    (fun n => if n = "b".data then some "boom".data else none)
    [⟨"a".data, some 2⟩] [⟨"c".data, some 1⟩] ⟨"b".data, some 3⟩ "boom".data
    (by decide) (by decide) (by decide)
  simpa using this

/-- Method ScaleUpDeployments of internal/k8s/client.go, instrumented with a
trace: getDep gives the outcome of fetching the deployment by name (its body
does not matter for the control flow, so it is a Unit result), updateErr the
outcome of the replica-restoring update.  The first component of the result
lists the names of the deployments the loop reached (for which a fetch call
was issued); the Go method returns only the error. -/
def ScaleUpDeployments (getDep : GoStr → Except GoStr Unit) (updateErr : GoStr → Option GoStr) : List DeploymentScale → List GoStr × Option GoStr
  | [] => ([], none)
  | s :: rest =>
    match getDep s.name with
    | .error e =>
      ([s.name], some ("failed to get deployment ".data ++ s.name ++ ": ".data ++ e))
    | .ok _ =>
      match updateErr s.name with
      | some e =>
        ([s.name], some ("failed to scale up deployment ".data ++ s.name ++ ": ".data ++ e))
      | none =>
        (s.name :: (ScaleUpDeployments getDep updateErr rest).1,
         (ScaleUpDeployments getDep updateErr rest).2)

/-- Counterexample to C2: with two snapshots where fetching the first
deployment fails, ScaleUpDeployments never reaches the second entry (only the
first name is in the attempted trace), so it does not attempt every entry and
returns the single first error rather than an aggregate. -/
theorem ScaleUpDeployments_stops_at_first_failure :
    (ScaleUpDeployments
        (fun n => if n = "a".data then Except.error "boom".data else Except.ok ())
        (fun _ => none) [⟨"a".data, 3⟩, ⟨"b".data, 5⟩]).1 = ["a".data]
    ∧ "b".data ∉ (ScaleUpDeployments
        (fun n => if n = "a".data then Except.error "boom".data else Except.ok ())
        (fun _ => none) [⟨"a".data, 3⟩, ⟨"b".data, 5⟩]).1 := by
  decide

theorem scaleUp_append_ok (getDep : GoStr → Except GoStr Unit) (updateErr : GoStr → Option GoStr) :
    ∀ (pre l : List DeploymentScale),
      (∀ p ∈ pre, getDep p.name = Except.ok () ∧ updateErr p.name = none) →
      ScaleUpDeployments getDep updateErr (pre ++ l) =
        (pre.map DeploymentScale.name ++ (ScaleUpDeployments getDep updateErr l).1,
         (ScaleUpDeployments getDep updateErr l).2) := by
  intro pre
  induction pre with
  | nil => intro l _; simp
  | cons p t ih =>
    intro l hok
    have hp := hok p (by simp)
    rw [List.cons_append]
    simp only [ScaleUpDeployments, hp.1, hp.2]
    rw [ih l (fun q hq => hok q (by simp [hq]))]
    simp

/-- C2 as amended: ScaleUpDeployments attempts the entries in order only up to
the first fetch or update failure; it stops at that entry, the later entries
are never attempted, and the returned error is the single wrapped failure
naming the workload at which it stopped. -/
theorem ScaleUpDeployments_first_failure (getDep : GoStr → Except GoStr Unit)
    (updateErr : GoStr → Option GoStr) (pre : List DeploymentScale)
    (hpre : ∀ p ∈ pre, getDep p.name = Except.ok () ∧ updateErr p.name = none) :
    (∀ (s : DeploymentScale) (post : List DeploymentScale) (e : GoStr),
        getDep s.name = Except.error e →
        ScaleUpDeployments getDep updateErr (pre ++ s :: post) =
          (pre.map DeploymentScale.name ++ [s.name],
           some ("failed to get deployment ".data ++ s.name ++ ": ".data ++ e)))
    ∧ (∀ (s : DeploymentScale) (post : List DeploymentScale) (e : GoStr),
        getDep s.name = Except.ok () → updateErr s.name = some e →
        ScaleUpDeployments getDep updateErr (pre ++ s :: post) =
          (pre.map DeploymentScale.name ++ [s.name],
           some ("failed to scale up deployment ".data ++ s.name ++ ": ".data ++ e))) := by
  constructor
  · intro s post e hget
    rw [scaleUp_append_ok getDep updateErr pre (s :: post) hpre]
    simp [ScaleUpDeployments, hget]
  · intro s post e hget hupd
    rw [scaleUp_append_ok getDep updateErr pre (s :: post) hpre]
    simp [ScaleUpDeployments, hget, hupd]

/-- Witness for the amended C2: one healthy entry, then an entry whose update
is rejected, then one more entry that is never reached. -/
theorem ScaleUpDeployments_first_failure_witness :
    ScaleUpDeployments (fun _ => Except.ok ())
        (fun n => if n = "b".data then some "boom".data else none)
        [⟨"a".data, 2⟩, ⟨"b".data, 5⟩, ⟨"c".data, 1⟩] =
      (["a".data, "b".data],
       some ("failed to scale up deployment ".data ++ "b".data ++ ": ".data ++ "boom".data)) := by
  have := (ScaleUpDeployments_first_failure (fun _ => Except.ok ())
      (fun n => if n = "b".data then some "boom".data else none)
      [⟨"a".data, 2⟩] (by intro p hp; simp at hp; subst hp; exact ⟨rfl, rfl⟩)).2
      ⟨"b".data, 5⟩ [⟨"c".data, 1⟩] "boom".data rfl rfl
  simpa using this

/-- Go unicode-aware space test of strings.TrimSpace, restricted to the
Latin-1 range (the space runes relevant to the claims are all ASCII). -/
def goIsSpace (c : Char) : Bool :=
  c = ' ' || c = '\t' || c = '\n' || c = Char.ofNat 11 || c = Char.ofNat 12 ||
  c = '\r' || c = Char.ofNat 133 || c = Char.ofNat 160

/-- Go strings.TrimSpace: drop leading and trailing space runes. -/
def goTrimSpace (s : GoStr) : GoStr :=
  ((s.dropWhile goIsSpace).reverse.dropWhile goIsSpace).reverse

/-- Go strings.ToLower, which lowercases rune by rune; Char.toLower covers the
ASCII letters, which is the range the confirmation tokens live in. -/
def goToLower (s : GoStr) : GoStr := s.map Char.toLower

/-- Function confirmDeletion of cmd/elasticsearch/restore-snapshot.go:
readLine is the outcome of reading one line (including its newline) from
standard input; the trimmed, lowercased response must be yes or y. -/
def confirmDeletion (readLine : Except GoStr GoStr) : Option GoStr :=
  match readLine with
  | .error e => some ("failed to read confirmation: ".data ++ e)
  | .ok line =>
    let response := goTrimSpace (goToLower line)
    if response ≠ "yes".data ∧ response ≠ "y".data then
      some "restore cancelled by user".data
    else none

/-- The Elasticsearch-side behaviour deleteIndices depends on: the rollover
outcome, and per index the delete outcome and the existence-check outcomes by
attempt number. -/
structure ESDeleteBehavior where
  rolloverErr : Option GoStr
  deleteErr : GoStr → Option GoStr
  checkExists : GoStr → Nat → Except GoStr Bool

/-- The fields of cfg.Elasticsearch.Restore that the restore command reads
(IndexPrefix, DatastreamIndexPrefix, DatastreamName; the first two names
shortened as elsewhere in this file). -/
structure RestoreConfig where
  indexPfx : GoStr
  datastreamPfx : GoStr
  datastreamName : GoStr

/-- The deletion loop of deleteIndices (cmd/elasticsearch/restore-snapshot.go
lines 274-278): delete-and-verify each index in order, stopping at the first
failure.  The second component records the indices for which a DeleteIndex
call was issued (deleteIndexWithVerification always issues exactly one). -/
def deleteLoop (es : ESDeleteBehavior) : List GoStr → Option GoStr × List GoStr
  | [] => (none, [])
  | index :: rest =>
    match (deleteIndexWithVerification (es.deleteErr index) (es.checkExists index) defaultMaxIndexDeleteAttempts index).err with
    | some e => (some e, [index])
    | none =>
      ((deleteLoop es rest).1, index :: (deleteLoop es rest).2)

/-- Function deleteIndices of cmd/elasticsearch/restore-snapshot.go: nothing
to do on an empty set; otherwise confirm unless skipConfirm, roll the
datastream over when it has member indices, then delete each index with
verification.  The second component records the DeleteIndex calls issued. -/
def deleteIndices (es : ESDeleteBehavior) (stsIndices : List GoStr) (cfg : RestoreConfig) (skipConfirm : Bool) (readLine : Except GoStr GoStr) : Option GoStr × List GoStr :=
  if stsIndices = [] then (none, [])
  else
    match (if skipConfirm then none else confirmDeletion readLine) with
    | some e => (some e, [])
    | none =>
      match (if hasDatastreamIndices stsIndices cfg.datastreamPfx then
              es.rolloverErr.map (fun e => "failed to rollover datastream: ".data ++ e)
             else none) with
      | some e => (some e, [])
      | none => deleteLoop es stsIndices

/-- C9: the confirmation step accepts exactly the lines whose lowercased,
space-trimmed form is yes or y; on any other line, a deletion run that asked
for confirmation fails with the user-cancellation error and issues zero
DeleteIndex calls. -/
theorem confirmDeletion_spec (line : GoStr) :
    (confirmDeletion (Except.ok line) = none ↔
      goTrimSpace (goToLower line) = "yes".data ∨ goTrimSpace (goToLower line) = "y".data)
    ∧ (∀ (es : ESDeleteBehavior) (cfg : RestoreConfig) (idxs : List GoStr),
        idxs ≠ [] → confirmDeletion (Except.ok line) ≠ none →
        deleteIndices es idxs cfg false (Except.ok line) =
          (some "restore cancelled by user".data, [])) := by
  constructor
  · by_cases hyes : goTrimSpace (goToLower line) = "yes".data
    · simp [confirmDeletion, hyes]
    · by_cases hy : goTrimSpace (goToLower line) = "y".data
      · simp [confirmDeletion, hyes, hy]
      · simp [confirmDeletion, hyes, hy]
  · intro es cfg idxs hne hfail
    have hcancel : confirmDeletion (Except.ok line) = some "restore cancelled by user".data := by
      by_cases hyes : goTrimSpace (goToLower line) = "yes".data
      · exact absurd (by simp [confirmDeletion, hyes]) hfail
      · by_cases hy : goTrimSpace (goToLower line) = "y".data
        · exact absurd (by simp [confirmDeletion, hyes, hy]) hfail
        · simp [confirmDeletion, hyes, hy]
    simp [deleteIndices, hne, hcancel]

/-- Witness for C9: the line no declines, and a one-index deletion run issues
no delete call. -/
theorem confirmDeletion_spec_witness :
    confirmDeletion (Except.ok "no".data) ≠ none
    ∧ deleteIndices ⟨none, fun _ => none, fun _ _ => Except.ok false⟩ ["sts_x".data]
        ⟨"sts_".data, "sts_ds".data, "sts_ds".data⟩ false (Except.ok "no".data) =
      (some "restore cancelled by user".data, []) :=
  ⟨by decide,
   (confirmDeletion_spec "no".data).2 ⟨none, fun _ => none, fun _ _ => Except.ok false⟩
     ⟨"sts_".data, "sts_ds".data, "sts_ds".data⟩ ["sts_x".data] (by decide) (by decide)⟩

/-- The environment a restore run executes against: outcomes of every
external call runRestore and its helpers make, in program order.  Fields
follow cmd/elasticsearch/restore-snapshot.go runRestore. -/
structure Env where
  k8sClientErr : Option GoStr
  configErr : Option GoStr
  deployList : Except GoStr (List Deployment)
  scaleDownUpdateErr : GoStr → Option GoStr
  portForwardErr : Option GoStr
  esClientErr : Option GoStr
  listIndicesRes : Except GoStr (List GoStr)
  snapshotRes : Except GoStr (List GoStr)
  restoreErr : Option GoStr
  scaleUpGetDep : GoStr → Except GoStr Unit
  scaleUpUpdateErr : GoStr → Option GoStr
  es : ESDeleteBehavior
  cfg : RestoreConfig
  readLine : Except GoStr GoStr

/-- The part of runRestore that executes after the scale-up finalizer has been
registered (port-forward, Elasticsearch client, index listing and filtering,
optional deletion, snapshot lookup, snapshot restore).  Returns the error the
function body would return and the DeleteIndex calls issued. -/
def runBody (env : Env) (dropAll skipConfirm : Bool) : Option GoStr × List GoStr :=
  match env.portForwardErr with
  | some e => (some ("failed to setup port-forward: ".data ++ e), [])
  | none =>
  match env.esClientErr with
  | some e => (some ("failed to create Elasticsearch client: ".data ++ e), [])
  | none =>
  match env.listIndicesRes with
  | .error e => (some ("failed to list indices: ".data ++ e), [])
  | .ok allIndices =>
    let stsIndices := filterSTSIndices allIndices env.cfg.indexPfx env.cfg.datastreamPfx
    let afterDelete := if dropAll then deleteIndices env.es stsIndices env.cfg skipConfirm env.readLine else (none, [])
    match afterDelete.1 with
    | some e => (some e, afterDelete.2)
    | none =>
    match env.snapshotRes with
    | .error e => (some ("failed to get snapshot details: ".data ++ e), afterDelete.2)
    | .ok _ =>
    match env.restoreErr with
    | some e => (some ("failed to restore snapshot: ".data ++ e), afterDelete.2)
    | none => (none, afterDelete.2)

/-- Observable outcome of one restore run: the error runRestore returns, how
many times the deferred scale-up (resume) was invoked, the error that
invocation produced (reported as a warning only), and the DeleteIndex calls
issued. -/
structure RunResult where
  err : Option GoStr
  resumeAttempts : Nat
  resumeErr : Option GoStr
  deleteCalls : List GoStr
deriving DecidableEq, Repr

/-- Function runRestore of cmd/elasticsearch/restore-snapshot.go.  The
scale-down wrapper (scaleDownDeployments, lines 224-242) returns nil plus the
wrapped error on failure, and runRestore returns that error before the
deferred scale-up is registered; on success the deferred function runs on
every exit path of the body and invokes ScaleUpDeployments exactly when the
captured snapshot list is non-empty. -/
def runRestore (env : Env) (dropAll skipConfirm : Bool) : RunResult :=
  match env.k8sClientErr with
  | some e => ⟨some ("failed to create Kubernetes client: ".data ++ e), 0, none, []⟩
  | none =>
  match env.configErr with
  | some e => ⟨some ("failed to load configuration: ".data ++ e), 0, none, []⟩
  | none =>
  match ScaleDownDeployments env.deployList env.scaleDownUpdateErr with
  | (_, some e) => ⟨some ("failed to scale down deployments: ".data ++ e), 0, none, []⟩
  | (scaled, none) =>
    let body := runBody env dropAll skipConfirm
    if scaled ≠ [] then
      ⟨body.1, 1, (ScaleUpDeployments env.scaleUpGetDep env.scaleUpUpdateErr scaled).2, body.2⟩
    else
      ⟨body.1, 0, none, body.2⟩

/-- The process exit code the restore command produces from a runRestore
outcome (restoreCmd Run calls os.Exit(1) exactly when runRestore errs). -/
def exitCode (r : RunResult) : Nat := if r.err.isSome then 1 else 0

/-- An environment in which the pause phase scales one deployment down and
then fails on the second, so a non-empty set of snapshots was captured but the
pause call itself errs. -/
def envC1 : Env :=
  ⟨none, none,
   Except.ok [⟨"a".data, some 3⟩, ⟨"b".data, some 2⟩],
   (fun n => if n = "b".data then some "boom".data else none),
   none, none, Except.ok [], Except.ok [], none,
   (fun _ => Except.ok ()), (fun _ => none),
   ⟨none, fun _ => none, fun _ _ => Except.ok false⟩,
   ⟨"sts_".data, "sts_ds".data, "sts_ds".data⟩,
   Except.ok "yes".data⟩

/-- Counterexample to C1: in envC1 the pause phase captured a non-empty set of
workload snapshots (it had scaled the first deployment down before failing on
the second), yet the run ends without a single resume attempt: the wrapper
discards the partial set and runRestore returns before the finalizer is
registered. -/
theorem runRestore_pause_failure_drops_resume :
    (ScaleDownDeployments envC1.deployList envC1.scaleDownUpdateErr).1 ≠ []
    ∧ (ScaleDownDeployments envC1.deployList envC1.scaleDownUpdateErr).2.isSome = true
    ∧ (runRestore envC1 false false).resumeAttempts = 0 := by
  decide

/-- C1 as amended: when the pause call returns without error and captured at
least one workload snapshot, the resume step is attempted exactly once before
the run ends, regardless of how any later phase fares; when the pause call
itself errs, the run ends with no resume attempt even if snapshots were
captured. -/
theorem runRestore_resume_invariant (env : Env) (dropAll skipConfirm : Bool)
    (scaled : List DeploymentScale)
    (hk : env.k8sClientErr = none) (hc : env.configErr = none) :
    (ScaleDownDeployments env.deployList env.scaleDownUpdateErr = (scaled, none) → scaled ≠ [] →
      (runRestore env dropAll skipConfirm).resumeAttempts = 1)
    ∧ (∀ e, ScaleDownDeployments env.deployList env.scaleDownUpdateErr = (scaled, some e) →
      (runRestore env dropAll skipConfirm).resumeAttempts = 0) := by
  constructor
  · intro hsd hne
    simp only [runRestore, hk, hc, hsd]
    rw [if_pos hne]
  · intro e hsd
    simp only [runRestore, hk, hc, hsd]

/-- An environment in which the pause phase succeeds with one snapshot and the
snapshot-restore call later fails. -/
def envC1ok : Env :=
  ⟨none, none,
   Except.ok [⟨"a".data, some 3⟩],
   (fun _ => none),
   none, none, Except.ok [], Except.ok [], some "restore exploded".data,
   (fun _ => Except.ok ()), (fun _ => none),
   ⟨none, fun _ => none, fun _ _ => Except.ok false⟩,
   ⟨"sts_".data, "sts_ds".data, "sts_ds".data⟩,
   Except.ok "yes".data⟩

/-- Witness for the amended C1: a run whose restore phase fails still resumes
exactly once, and the run of envC1 (pause failed after a partial capture)
resumes zero times. -/
theorem runRestore_resume_invariant_witness :
    (runRestore envC1ok false false).resumeAttempts = 1
    ∧ (runRestore envC1 false false).resumeAttempts = 0 :=
  ⟨(runRestore_resume_invariant envC1ok false false [⟨"a".data, 3⟩] rfl rfl).1 rfl (by decide),
   (runRestore_resume_invariant envC1 false false [⟨"a".data, 3⟩, ⟨"b".data, 2⟩] rfl rfl).2
     ("failed to scale down deployment ".data ++ "b".data ++ ": ".data ++ "boom".data) rfl⟩

/-- C4: when every phase through the snapshot restore succeeds but the resume
step executed in the finalizer fails, runRestore still returns no error, the
process exit code is 0, and the resume failure is surfaced only as the
warning value. -/
theorem runRestore_resume_failure_still_success (env : Env) (dropAll skipConfirm : Bool)
    (scaled : List DeploymentScale) (e : GoStr)
    (hk : env.k8sClientErr = none) (hc : env.configErr = none)
    (hsd : ScaleDownDeployments env.deployList env.scaleDownUpdateErr = (scaled, none))
    (hne : scaled ≠ [])
    (hbody : (runBody env dropAll skipConfirm).1 = none)
    (hresume : (ScaleUpDeployments env.scaleUpGetDep env.scaleUpUpdateErr scaled).2 = some e) :
    (runRestore env dropAll skipConfirm).err = none
    ∧ exitCode (runRestore env dropAll skipConfirm) = 0
    ∧ (runRestore env dropAll skipConfirm).resumeAttempts = 1
    ∧ (runRestore env dropAll skipConfirm).resumeErr = some e := by
  have hrun : runRestore env dropAll skipConfirm =
      ⟨(runBody env dropAll skipConfirm).1, 1,
       (ScaleUpDeployments env.scaleUpGetDep env.scaleUpUpdateErr scaled).2,
       (runBody env dropAll skipConfirm).2⟩ := by
    simp only [runRestore, hk, hc, hsd]
    rw [if_pos hne]
  rw [hrun]
  refine ⟨hbody, ?_, rfl, hresume⟩
  simp [exitCode, hbody]

/-- An environment in which every restore phase succeeds but fetching the
deployment during resume fails. -/
def envC4 : Env :=
  ⟨none, none,
   Except.ok [⟨"a".data, some 3⟩],
   (fun _ => none),
   none, none, Except.ok [], Except.ok [], none,
   (fun _ => Except.error "boom".data), (fun _ => none),
   ⟨none, fun _ => none, fun _ _ => Except.ok false⟩,
   ⟨"sts_".data, "sts_ds".data, "sts_ds".data⟩,
   Except.ok "yes".data⟩

/-- Witness for C4 on envC4. -/
theorem runRestore_resume_failure_still_success_witness :
    (runRestore envC4 false false).err = none
    ∧ exitCode (runRestore envC4 false false) = 0
    ∧ (runRestore envC4 false false).resumeAttempts = 1
    ∧ (runRestore envC4 false false).resumeErr =
        some ("failed to get deployment ".data ++ "a".data ++ ": ".data ++ "boom".data) :=
  runRestore_resume_failure_still_success envC4 false false [⟨"a".data, 3⟩]
    ("failed to get deployment ".data ++ "a".data ++ ": ".data ++ "boom".data)
    rfl rfl rfl (by decide) rfl rfl

end StackstateBackup
